import Mathlib

/-!
Shallow embedding of the Calimero shim layer (`packages/cli/shim/src/lib.rs`).

The shim exposes C-callable entry points that turn raw (pointer, length) pairs
from the guest into the buffer/reference types of the Calimero host runtime and
forward one host call per invocation.  Caller memory is modelled as a function
from addresses to bytes; pointer-width casts (`as usize`, `u64` to pointer) are
reduction modulo `2 ^ w` for a pointer width `w`; the host interface is an
oracle record, and each entry point returns its caller-visible numeric result
together with the list of host calls it performs (the host-visible trace).
Types of the `calimero_sys` crate that are outside this fragment (the tri-state
`Bool`, the register semantics of the runtime) are modelled from the spec where
noted.
-/

namespace CalimeroShim

/-- Caller memory: the byte stored at each address of the guest address space. -/
abbrev Mem := Nat → Nat

/-- A `u64 as usize` (or `u64`-to-pointer) cast on a target of pointer width
`w`: reduction modulo `2 ^ w`. -/
def usize (w x : Nat) : Nat := x % 2 ^ w

/-- `core::slice::from_raw_parts`: the list of `len` bytes starting at address
`ptr` in caller memory. -/
def from_raw_parts (mem : Mem) (ptr len : Nat) : List Nat :=
  (List.range len).map fun i => mem (ptr + i)

/-- `core::str::from_utf8_unchecked`: reinterpret the bytes as text with no
decoding check.  Strings are modelled by their UTF-8 byte lists, so the
reinterpretation leaves the content unchanged for every input, well-formed
or not. -/
def from_utf8_unchecked (bytes : List Nat) : List Nat := bytes

/-- Modelled from the spec: the host boolean (`calimero_sys::Bool`, outside
this fragment) is a tri-state tagged union True / False / Other(raw value),
per the spec's design note on tri-state boolean passthrough. -/
inductive HostBool where
  | tt
  | ff
  | other (raw : Nat)
deriving DecidableEq

/-- Modelled from the spec: the `TryInto<bool>` conversion of the host boolean
— the strict true and false encodings convert to the two booleans, and any
other underlying value is handed back in the error case. -/
def HostBool.try_into : HostBool → Except Nat Bool
  | HostBool.tt => Except.ok true
  | HostBool.ff => Except.ok false
  | HostBool.other raw => Except.error raw

/-- `bool_to_u32` from the shim: true maps to 1, false to 0, and a value
outside the strict true/false encoding passes through as itself. -/
def bool_to_u32 (b : HostBool) : Nat :=
  match HostBool.try_into b with
  | Except.ok true => 1
  | Except.ok false => 0
  | Except.error x => x

/-- `RegisterId::new`: a representational newtype over `usize`, modelled by the
underlying value. -/
def RegisterId.new (x : Nat) : Nat := x

/-- `PtrSizedInt::new`: a representational newtype over `usize`. -/
def PtrSizedInt.new (x : Nat) : Nat := x

/-- `PtrSizedInt::as_usize`; together with the widening `usize as u64` cast at
the return sites it preserves the underlying value. -/
def PtrSizedInt.as_usize (x : Nat) : Nat := x

/-- A mutable buffer descriptor (`buffer_mut_from_raw`'s result): the host
writes through it, so the host call records its address and length. -/
structure MutBuffer where
  ptr : Nat
  len : Nat
deriving DecidableEq

/-- `buffer_from_raw`: a read-only view over caller memory, modelled by the
byte contents the host operation receives. -/
def buffer_from_raw (w : Nat) (mem : Mem) (ptr len : Nat) : List Nat :=
  from_raw_parts mem (usize w ptr) (usize w len)

/-- `buffer_mut_from_raw`: a mutable view over caller memory. -/
def buffer_mut_from_raw (w : Nat) (ptr len : Nat) : MutBuffer :=
  ⟨usize w ptr, usize w len⟩

/-- `calimero_sys::Event`: an event kind (text, modelled by its bytes) and a
data payload buffer. -/
structure Event where
  kind : List Nat
  data : List Nat
deriving DecidableEq

/-- `Event::new`. -/
def Event.new (kind data : List Nat) : Event := ⟨kind, data⟩

/-- One call into the host interface, recording exactly the arguments the host
operation receives. -/
inductive HostCall where
  | log (message : List Nat)
  | storage_read (key : List Nat) (register_id : Nat)
  | storage_write (key value : List Nat) (register_id : Nat)
  | storage_remove (key : List Nat) (register_id : Nat)
  | context_id (register_id : Nat)
  | executor_id (register_id : Nat)
  | register_len (register_id : Nat)
  | read_register (register_id : Nat) (buf : MutBuffer)
  | emit (event : Event)
  | emit_with_handler (event : Event) (handler : List Nat)
  | commit (root artifact : List Nat)
  | time_now (buf : MutBuffer)
  | blob_create
  | blob_open (blob_id : List Nat)
  | blob_read (fd : Nat) (buf : MutBuffer)
  | blob_write (fd : Nat) (data : List Nat)
  | blob_close (fd : Nat) (buf : MutBuffer)
deriving DecidableEq

/-- The host interface as an oracle: for every host operation that returns a
value, the response the host gives to a call with the recorded arguments.
Operations with no return value need no field. -/
structure Host where
  storage_read : List Nat → Nat → HostBool
  storage_write : List Nat → List Nat → Nat → HostBool
  storage_remove : List Nat → Nat → HostBool
  register_len : Nat → Nat
  read_register : Nat → MutBuffer → HostBool
  blob_create : Nat
  blob_open : List Nat → Nat
  blob_read : Nat → MutBuffer → Nat
  blob_write : Nat → List Nat → Nat
  blob_close : Nat → MutBuffer → HostBool

/-- Modelled from the spec: `calimero_sdk::env::log` (outside this fragment)
forwards the message to the host logging primitive and returns no status. -/
def env_log (message : List Nat) : List HostCall := [HostCall.log message]

/-- `shim_log_utf8`: reinterpret the span as UTF-8 without any check and log
it.  Returns nothing; the value is the host-visible trace. -/
def shim_log_utf8 (w : Nat) (mem : Mem) (ptr len : Nat) : List HostCall :=
  let message := from_utf8_unchecked (from_raw_parts mem (usize w ptr) (usize w len))
  env_log message

/-- `shim_storage_read`. -/
def shim_storage_read (w : Nat) (h : Host) (mem : Mem)
    (key_ptr key_len register_id : Nat) : Nat × List HostCall :=
  let key := from_raw_parts mem (usize w key_ptr) (usize w key_len)
  let reg_id := RegisterId.new (usize w register_id)
  let result := h.storage_read key reg_id
  (bool_to_u32 result, [HostCall.storage_read key reg_id])

/-- `shim_storage_write`. -/
def shim_storage_write (w : Nat) (h : Host) (mem : Mem)
    (key_ptr key_len value_ptr value_len register_id : Nat) : Nat × List HostCall :=
  let key := from_raw_parts mem (usize w key_ptr) (usize w key_len)
  let value := from_raw_parts mem (usize w value_ptr) (usize w value_len)
  let reg_id := RegisterId.new (usize w register_id)
  let result := h.storage_write key value reg_id
  (bool_to_u32 result, [HostCall.storage_write key value reg_id])

/-- `shim_storage_remove`. -/
def shim_storage_remove (w : Nat) (h : Host) (mem : Mem)
    (key_ptr key_len register_id : Nat) : Nat × List HostCall :=
  let key := from_raw_parts mem (usize w key_ptr) (usize w key_len)
  let reg_id := RegisterId.new (usize w register_id)
  let result := h.storage_remove key reg_id
  (bool_to_u32 result, [HostCall.storage_remove key reg_id])

/-- `shim_context_id`: writes into a register; no status returned. -/
def shim_context_id (w : Nat) (register_id : Nat) : List HostCall :=
  [HostCall.context_id (RegisterId.new (usize w register_id))]

/-- `shim_executor_id`: writes into a register; no status returned. -/
def shim_executor_id (w : Nat) (register_id : Nat) : List HostCall :=
  [HostCall.executor_id (RegisterId.new (usize w register_id))]

/-- `shim_register_len`: returns the host magnitude through
`result.as_usize() as u64`, a value-preserving chain. -/
def shim_register_len (w : Nat) (h : Host) (register_id : Nat) : Nat × List HostCall :=
  let reg_id := RegisterId.new (usize w register_id)
  let result := h.register_len reg_id
  (PtrSizedInt.as_usize result, [HostCall.register_len reg_id])

/-- `shim_read_register`. -/
def shim_read_register (w : Nat) (h : Host)
    (register_id buf_ptr buf_len : Nat) : Nat × List HostCall :=
  let reg_id := RegisterId.new (usize w register_id)
  let buffer := buffer_mut_from_raw w buf_ptr buf_len
  let result := h.read_register reg_id buffer
  (bool_to_u32 result, [HostCall.read_register reg_id buffer])

/-- `shim_emit`: no status returned; the value is the host-visible trace. -/
def shim_emit (w : Nat) (mem : Mem)
    (kind_ptr kind_len data_ptr data_len : Nat) : List HostCall :=
  let kind_bytes := from_raw_parts mem (usize w kind_ptr) (usize w kind_len)
  let kind_str := from_utf8_unchecked kind_bytes
  let data := from_raw_parts mem (usize w data_ptr) (usize w data_len)
  [HostCall.emit (Event.new kind_str data)]

/-- `shim_emit_with_handler`: no status returned. -/
def shim_emit_with_handler (w : Nat) (mem : Mem)
    (kind_ptr kind_len data_ptr data_len handler_ptr handler_len : Nat) : List HostCall :=
  let kind_bytes := from_raw_parts mem (usize w kind_ptr) (usize w kind_len)
  let kind_str := from_utf8_unchecked kind_bytes
  let data := from_raw_parts mem (usize w data_ptr) (usize w data_len)
  let handler := from_raw_parts mem (usize w handler_ptr) (usize w handler_len)
  [HostCall.emit_with_handler (Event.new kind_str data) handler]

/-- `shim_commit`: no status returned. -/
def shim_commit (w : Nat) (mem : Mem)
    (root_ptr root_len artifact_ptr artifact_len : Nat) : List HostCall :=
  let root := from_raw_parts mem (usize w root_ptr) (usize w root_len)
  let artifact := from_raw_parts mem (usize w artifact_ptr) (usize w artifact_len)
  [HostCall.commit root artifact]

/-- `shim_time_now`: the host writes the timestamp into the span; no status
returned. -/
def shim_time_now (w : Nat) (buf_ptr buf_len : Nat) : List HostCall :=
  [HostCall.time_now (buffer_mut_from_raw w buf_ptr buf_len)]

/-- `shim_blob_create`. -/
def shim_blob_create (h : Host) : Nat × List HostCall :=
  (PtrSizedInt.as_usize h.blob_create, [HostCall.blob_create])

/-- `shim_blob_open`. -/
def shim_blob_open (w : Nat) (h : Host) (mem : Mem)
    (blob_id_ptr blob_id_len : Nat) : Nat × List HostCall :=
  let blob_id := from_raw_parts mem (usize w blob_id_ptr) (usize w blob_id_len)
  let result := h.blob_open blob_id
  (PtrSizedInt.as_usize result, [HostCall.blob_open blob_id])

/-- `shim_blob_read`. -/
def shim_blob_read (w : Nat) (h : Host) (fd buf_ptr buf_len : Nat) : Nat × List HostCall :=
  let buffer := buffer_mut_from_raw w buf_ptr buf_len
  let fd_sized := PtrSizedInt.new (usize w fd)
  let result := h.blob_read fd_sized buffer
  (PtrSizedInt.as_usize result, [HostCall.blob_read fd_sized buffer])

/-- `shim_blob_write`. -/
def shim_blob_write (w : Nat) (h : Host) (mem : Mem) (fd data_ptr data_len : Nat) :
    Nat × List HostCall :=
  let data := from_raw_parts mem (usize w data_ptr) (usize w data_len)
  let fd_sized := PtrSizedInt.new (usize w fd)
  let result := h.blob_write fd_sized data
  (PtrSizedInt.as_usize result, [HostCall.blob_write fd_sized data])

/-- `shim_blob_close`. -/
def shim_blob_close (w : Nat) (h : Host) (fd blob_id_buf_ptr blob_id_buf_len : Nat) :
    Nat × List HostCall :=
  let buffer := buffer_mut_from_raw w blob_id_buf_ptr blob_id_buf_len
  let fd_sized := PtrSizedInt.new (usize w fd)
  let result := h.blob_close fd_sized buffer
  (bool_to_u32 result, [HostCall.blob_close fd_sized buffer])

/-- One caller invocation of an entry point, with its integer arguments. -/
inductive Invocation where
  | log (p l : Nat)
  | storage_read (kp kl r : Nat)
  | storage_write (kp kl vp vl r : Nat)
  | storage_remove (kp kl r : Nat)
  | context_id (r : Nat)
  | executor_id (r : Nat)
  | register_len (r : Nat)
  | read_register (r bp bl : Nat)
  | emit (kp kl dp dl : Nat)
  | emit_with_handler (kp kl dp dl hp hl : Nat)
  | commit (rp rl ap al : Nat)
  | time_now (bp bl : Nat)
  | blob_create
  | blob_open (ip il : Nat)
  | blob_read (fd bp bl : Nat)
  | blob_write (fd dp dl : Nat)
  | blob_close (fd bp bl : Nat)

/-- The caller-visible outcome of one invocation: its numeric result (if the
entry point returns one) and the host-visible call trace. -/
inductive Output where
  | ret_u32 (value : Nat) (trace : List HostCall)
  | ret_u64 (value : Nat) (trace : List HostCall)
  | ret_unit (trace : List HostCall)
deriving DecidableEq

/-- Dispatch one invocation to its entry point. -/
def invoke (w : Nat) (h : Host) (mem : Mem) : Invocation → Output
  | Invocation.log p l => Output.ret_unit (shim_log_utf8 w mem p l)
  | Invocation.storage_read kp kl r =>
      let o := shim_storage_read w h mem kp kl r
      Output.ret_u32 o.1 o.2
  | Invocation.storage_write kp kl vp vl r =>
      let o := shim_storage_write w h mem kp kl vp vl r
      Output.ret_u32 o.1 o.2
  | Invocation.storage_remove kp kl r =>
      let o := shim_storage_remove w h mem kp kl r
      Output.ret_u32 o.1 o.2
  | Invocation.context_id r => Output.ret_unit (shim_context_id w r)
  | Invocation.executor_id r => Output.ret_unit (shim_executor_id w r)
  | Invocation.register_len r =>
      let o := shim_register_len w h r
      Output.ret_u64 o.1 o.2
  | Invocation.read_register r bp bl =>
      let o := shim_read_register w h r bp bl
      Output.ret_u32 o.1 o.2
  | Invocation.emit kp kl dp dl => Output.ret_unit (shim_emit w mem kp kl dp dl)
  | Invocation.emit_with_handler kp kl dp dl hp hl =>
      Output.ret_unit (shim_emit_with_handler w mem kp kl dp dl hp hl)
  | Invocation.commit rp rl ap al => Output.ret_unit (shim_commit w mem rp rl ap al)
  | Invocation.time_now bp bl => Output.ret_unit (shim_time_now w bp bl)
  | Invocation.blob_create =>
      let o := shim_blob_create h
      Output.ret_u64 o.1 o.2
  | Invocation.blob_open ip il =>
      let o := shim_blob_open w h mem ip il
      Output.ret_u64 o.1 o.2
  | Invocation.blob_read fd bp bl =>
      let o := shim_blob_read w h fd bp bl
      Output.ret_u64 o.1 o.2
  | Invocation.blob_write fd dp dl =>
      let o := shim_blob_write w h mem fd dp dl
      Output.ret_u64 o.1 o.2
  | Invocation.blob_close fd bp bl =>
      let o := shim_blob_close w h fd bp bl
      Output.ret_u32 o.1 o.2

/-- A sequence of invocations against a fixed host and caller memory.  The
shim layer declares no static and threads no state of its own, so a run is the
per-invocation outcome sequence. -/
def run (w : Nat) (h : Host) (mem : Mem) (l : List Invocation) : List Output :=
  l.map (invoke w h mem)

/-- Modelled from the spec: the length the host reports for a register holding
the contents `regs r` (the runtime's register table is outside this
fragment). -/
def spec_register_len (regs : Nat → List Nat) (r : Nat) : Nat := (regs r).length

/-- Modelled from the spec: the runtime's `read_register` (outside this
fragment) succeeds when the destination is sized exactly to the register
length, writing the full register contents, and fails on a destination of any
other size, writing nothing — never a truncated prefix.  The result is the
host boolean together with the bytes written into the destination. -/
def spec_read_register (regs : Nat → List Nat) (r : Nat) (buf : MutBuffer) :
    HostBool × List Nat :=
  if buf.len = (regs r).length then (HostBool.tt, regs r) else (HostBool.ff, [])

/-- Modelled from the spec: a host whose register table is `regs`, suitable for
settling the register-length/register-read contract; the responses of the
operations the contract does not involve are fixed failure defaults. -/
def specHost (regs : Nat → List Nat) : Host where
  storage_read := fun _ _ => HostBool.ff
  storage_write := fun _ _ _ => HostBool.ff
  storage_remove := fun _ _ => HostBool.ff
  register_len := fun r => spec_register_len regs r
  read_register := fun r buf => (spec_read_register regs r buf).1
  blob_create := 0
  blob_open := fun _ => 0
  blob_read := fun _ _ => 0
  blob_write := fun _ _ => 0
  blob_close := fun _ _ => HostBool.ff

/-- A concrete register table for witnesses: every register holds two bytes. -/
def demoRegs : Nat → List Nat := fun _ => [7, 8]

/-- A concrete caller memory for witnesses. -/
def demoMem : Mem := fun a => a % 256

/-- A concrete host for witnesses. -/
def demoHost : Host where
  storage_read := fun _ _ => HostBool.tt
  storage_write := fun _ _ _ => HostBool.tt
  storage_remove := fun _ _ => HostBool.ff
  register_len := fun _ => 2
  read_register := fun _ _ => HostBool.tt
  blob_create := 3
  blob_open := fun _ => 4
  blob_read := fun _ _ => 5
  blob_write := fun _ _ => 6
  blob_close := fun _ _ => HostBool.other 2

theorem from_raw_parts_length (mem : Mem) (p l : Nat) :
    (from_raw_parts mem p l).length = l := by
  simp [from_raw_parts]

theorem from_raw_parts_getD (mem : Mem) (p l i : Nat) (h : i < l) :
    (from_raw_parts mem p l).getD i 0 = mem (p + i) := by
  simp [from_raw_parts, List.getD_eq_getElem?_getD, List.getElem?_map,
    List.getElem?_range, h]

/-- Claim C1: for every host boolean result delivered to a boolean-returning
entry point (`shim_storage_read`, `shim_storage_write`, `shim_storage_remove`,
`shim_read_register`, `shim_blob_close`), `bool_to_u32` maps true to 1, false
to 0, and is the identity on any other underlying value, and each of those
entry points returns exactly `bool_to_u32` of the host's response. -/
theorem bool_to_u32_passthrough (w : Nat) (h : Host) (mem : Mem)
    (x kp kl vp vl r bp bl fd : Nat) :
    bool_to_u32 HostBool.tt = 1
    ∧ bool_to_u32 HostBool.ff = 0
    ∧ bool_to_u32 (HostBool.other x) = x
    ∧ (shim_storage_read w h mem kp kl r).1 =
        bool_to_u32 (h.storage_read (buffer_from_raw w mem kp kl)
          (RegisterId.new (usize w r)))
    ∧ (shim_storage_write w h mem kp kl vp vl r).1 =
        bool_to_u32 (h.storage_write (buffer_from_raw w mem kp kl)
          (buffer_from_raw w mem vp vl) (RegisterId.new (usize w r)))
    ∧ (shim_storage_remove w h mem kp kl r).1 =
        bool_to_u32 (h.storage_remove (buffer_from_raw w mem kp kl)
          (RegisterId.new (usize w r)))
    ∧ (shim_read_register w h r bp bl).1 =
        bool_to_u32 (h.read_register (RegisterId.new (usize w r))
          (buffer_mut_from_raw w bp bl))
    ∧ (shim_blob_close w h fd bp bl).1 =
        bool_to_u32 (h.blob_close (PtrSizedInt.new (usize w fd))
          (buffer_mut_from_raw w bp bl)) :=
  ⟨rfl, rfl, rfl, rfl, rfl, rfl, rfl, rfl⟩

/-- Claim C10: the boolean-to-integer conversion is not injective at 0 and 1 —
a host tri-state value with raw encoding 1 (or 0) that is not the strict true
(or false) encoding yields the same caller-visible u32 as true (or false),
though it is a different host value. -/
theorem bool_to_u32_collision :
    bool_to_u32 (HostBool.other 1) = bool_to_u32 HostBool.tt
    ∧ bool_to_u32 (HostBool.other 0) = bool_to_u32 HostBool.ff
    ∧ HostBool.other 1 ≠ HostBool.tt
    ∧ HostBool.other 0 ≠ HostBool.ff := by
  decide

/-- Claim C3: every entry point whose result is a count or size
(`shim_register_len`, `shim_blob_create`, `shim_blob_open`, `shim_blob_read`,
`shim_blob_write`) returns the magnitude produced by the host operation
unmodified, the `as_usize`/`as u64` chain being value-preserving. -/
theorem magnitude_unmodified (w : Nat) (h : Host) (mem : Mem)
    (r fd bp bl ip il dp dl : Nat) :
    (shim_register_len w h r).1 = h.register_len (RegisterId.new (usize w r))
    ∧ (shim_blob_create h).1 = h.blob_create
    ∧ (shim_blob_open w h mem ip il).1 = h.blob_open (buffer_from_raw w mem ip il)
    ∧ (shim_blob_read w h fd bp bl).1 =
        h.blob_read (PtrSizedInt.new (usize w fd)) (buffer_mut_from_raw w bp bl)
    ∧ (shim_blob_write w h mem fd dp dl).1 =
        h.blob_write (PtrSizedInt.new (usize w fd)) (buffer_from_raw w mem dp dl)
    ∧ (∀ m : Nat, PtrSizedInt.as_usize m = m) :=
  ⟨rfl, rfl, rfl, rfl, rfl, fun _ => rfl⟩

/-- Claim C4: `shim_emit` and `shim_emit_with_handler` return no status to the
caller for any input — the entire caller-visible outcome of each is the single
host call it performs, with no result component. -/
theorem emit_returns_no_status (w : Nat) (mem : Mem)
    (kp kl dp dl hp hl : Nat) :
    shim_emit w mem kp kl dp dl =
      [HostCall.emit (Event.new
        (from_utf8_unchecked (buffer_from_raw w mem kp kl))
        (buffer_from_raw w mem dp dl))]
    ∧ shim_emit_with_handler w mem kp kl dp dl hp hl =
      [HostCall.emit_with_handler (Event.new
        (from_utf8_unchecked (buffer_from_raw w mem kp kl))
        (buffer_from_raw w mem dp dl))
        (buffer_from_raw w mem hp hl)] :=
  ⟨rfl, rfl⟩

/-- Claim C2: for every entry point taking an (address, length) pair and every
valid such pair (address and length within pointer width), the byte span the
host operation receives is exactly the `length` bytes stored at that address —
the read-only span construction reproduces each byte of caller memory
verbatim, the mutable span descriptor carries the address and length verbatim,
and every span-taking entry point (storage read/write/remove, blob open/write,
commit, log, emit, emit-with-handler, read-register, time-now, blob read,
blob close) forwards the constructed span to the host unchanged. -/
theorem span_round_trip (w : Nat) (h : Host) (mem : Mem)
    (p l kp kl vp vl dp dl rp rl ap al ip il r fd gp gl bp bl : Nat)
    (hp : p < 2 ^ w) (hl : l < 2 ^ w) (hbp : bp < 2 ^ w) (hbl : bl < 2 ^ w) :
    (buffer_from_raw w mem p l).length = l
    ∧ (∀ i, i < l → (buffer_from_raw w mem p l).getD i 0 = mem (p + i))
    ∧ (shim_storage_write w h mem kp kl vp vl r).2 =
        [HostCall.storage_write (buffer_from_raw w mem kp kl)
          (buffer_from_raw w mem vp vl) (RegisterId.new (usize w r))]
    ∧ (shim_storage_read w h mem kp kl r).2 =
        [HostCall.storage_read (buffer_from_raw w mem kp kl)
          (RegisterId.new (usize w r))]
    ∧ (shim_storage_remove w h mem kp kl r).2 =
        [HostCall.storage_remove (buffer_from_raw w mem kp kl)
          (RegisterId.new (usize w r))]
    ∧ (shim_blob_open w h mem ip il).2 =
        [HostCall.blob_open (buffer_from_raw w mem ip il)]
    ∧ (shim_blob_write w h mem fd dp dl).2 =
        [HostCall.blob_write (PtrSizedInt.new (usize w fd))
          (buffer_from_raw w mem dp dl)]
    ∧ shim_commit w mem rp rl ap al =
        [HostCall.commit (buffer_from_raw w mem rp rl) (buffer_from_raw w mem ap al)]
    ∧ shim_log_utf8 w mem p l = [HostCall.log (buffer_from_raw w mem p l)]
    ∧ shim_emit w mem kp kl dp dl =
        [HostCall.emit (Event.new (buffer_from_raw w mem kp kl)
          (buffer_from_raw w mem dp dl))]
    ∧ shim_emit_with_handler w mem kp kl dp dl gp gl =
        [HostCall.emit_with_handler (Event.new (buffer_from_raw w mem kp kl)
          (buffer_from_raw w mem dp dl)) (buffer_from_raw w mem gp gl)]
    ∧ buffer_mut_from_raw w bp bl = MutBuffer.mk bp bl
    ∧ (shim_read_register w h r bp bl).2 =
        [HostCall.read_register (RegisterId.new (usize w r))
          (buffer_mut_from_raw w bp bl)]
    ∧ shim_time_now w bp bl = [HostCall.time_now (buffer_mut_from_raw w bp bl)]
    ∧ (shim_blob_read w h fd bp bl).2 =
        [HostCall.blob_read (PtrSizedInt.new (usize w fd))
          (buffer_mut_from_raw w bp bl)]
    ∧ (shim_blob_close w h fd bp bl).2 =
        [HostCall.blob_close (PtrSizedInt.new (usize w fd))
          (buffer_mut_from_raw w bp bl)] := by
  have hp' : usize w p = p := Nat.mod_eq_of_lt hp
  have hl' : usize w l = l := Nat.mod_eq_of_lt hl
  refine ⟨?_, ?_, rfl, rfl, rfl, rfl, rfl, rfl, rfl, rfl, rfl, ?_, rfl, rfl, rfl, rfl⟩
  · rw [buffer_from_raw, hp', hl', from_raw_parts_length]
  · intro i hi
    rw [buffer_from_raw, hp', hl', from_raw_parts_getD mem p l i hi]
  · simp [buffer_mut_from_raw, usize, Nat.mod_eq_of_lt hbp, Nat.mod_eq_of_lt hbl]

/-- Witness for C2 at pointer width 32: read-only span at address 10 of
length 3, mutable span at address 20 of length 4. -/
theorem span_round_trip_witness :
    (buffer_from_raw 32 demoMem 10 3).length = 3
    ∧ (∀ i, i < 3 → (buffer_from_raw 32 demoMem 10 3).getD i 0 = demoMem (10 + i))
    ∧ (shim_storage_write 32 demoHost demoMem 0 0 0 0 0).2 =
        [HostCall.storage_write (buffer_from_raw 32 demoMem 0 0)
          (buffer_from_raw 32 demoMem 0 0) (RegisterId.new (usize 32 0))]
    ∧ (shim_storage_read 32 demoHost demoMem 0 0 0).2 =
        [HostCall.storage_read (buffer_from_raw 32 demoMem 0 0)
          (RegisterId.new (usize 32 0))]
    ∧ (shim_storage_remove 32 demoHost demoMem 0 0 0).2 =
        [HostCall.storage_remove (buffer_from_raw 32 demoMem 0 0)
          (RegisterId.new (usize 32 0))]
    ∧ (shim_blob_open 32 demoHost demoMem 0 0).2 =
        [HostCall.blob_open (buffer_from_raw 32 demoMem 0 0)]
    ∧ (shim_blob_write 32 demoHost demoMem 0 0 0).2 =
        [HostCall.blob_write (PtrSizedInt.new (usize 32 0))
          (buffer_from_raw 32 demoMem 0 0)]
    ∧ shim_commit 32 demoMem 0 0 0 0 =
        [HostCall.commit (buffer_from_raw 32 demoMem 0 0) (buffer_from_raw 32 demoMem 0 0)]
    ∧ shim_log_utf8 32 demoMem 10 3 = [HostCall.log (buffer_from_raw 32 demoMem 10 3)]
    ∧ shim_emit 32 demoMem 0 0 0 0 =
        [HostCall.emit (Event.new (buffer_from_raw 32 demoMem 0 0)
          (buffer_from_raw 32 demoMem 0 0))]
    ∧ shim_emit_with_handler 32 demoMem 0 0 0 0 0 0 =
        [HostCall.emit_with_handler (Event.new (buffer_from_raw 32 demoMem 0 0)
          (buffer_from_raw 32 demoMem 0 0)) (buffer_from_raw 32 demoMem 0 0)]
    ∧ buffer_mut_from_raw 32 20 4 = MutBuffer.mk 20 4
    ∧ (shim_read_register 32 demoHost 0 20 4).2 =
        [HostCall.read_register (RegisterId.new (usize 32 0))
          (buffer_mut_from_raw 32 20 4)]
    ∧ shim_time_now 32 20 4 = [HostCall.time_now (buffer_mut_from_raw 32 20 4)]
    ∧ (shim_blob_read 32 demoHost 0 20 4).2 =
        [HostCall.blob_read (PtrSizedInt.new (usize 32 0))
          (buffer_mut_from_raw 32 20 4)]
    ∧ (shim_blob_close 32 demoHost 0 20 4).2 =
        [HostCall.blob_close (PtrSizedInt.new (usize 32 0))
          (buffer_mut_from_raw 32 20 4)] :=
  span_round_trip 32 demoHost demoMem 10 3 0 0 0 0 0 0 0 0 0 0 0 0 0 0 0 0 20 4
    (by decide) (by decide) (by decide) (by decide)

/-- Claim C5: every entry point performs exactly one invocation of its
corresponding host operation per caller invocation — its host-visible trace is
the one-element list holding that call — and a host response is surfaced to
the caller as-is through the numeric result, with no retry, no recovery, no
logging or metrics call, and no added context. -/
theorem single_host_call_verbatim (w : Nat) (h : Host) (mem : Mem)
    (p l kp kl vp vl r bp bl dp dl hp hl rp rl ap al ip il fd : Nat) :
    shim_log_utf8 w mem p l =
      [HostCall.log (from_utf8_unchecked (buffer_from_raw w mem p l))]
    ∧ shim_storage_read w h mem kp kl r =
        (bool_to_u32 (h.storage_read (buffer_from_raw w mem kp kl)
            (RegisterId.new (usize w r))),
         [HostCall.storage_read (buffer_from_raw w mem kp kl)
            (RegisterId.new (usize w r))])
    ∧ shim_storage_write w h mem kp kl vp vl r =
        (bool_to_u32 (h.storage_write (buffer_from_raw w mem kp kl)
            (buffer_from_raw w mem vp vl) (RegisterId.new (usize w r))),
         [HostCall.storage_write (buffer_from_raw w mem kp kl)
            (buffer_from_raw w mem vp vl) (RegisterId.new (usize w r))])
    ∧ shim_storage_remove w h mem kp kl r =
        (bool_to_u32 (h.storage_remove (buffer_from_raw w mem kp kl)
            (RegisterId.new (usize w r))),
         [HostCall.storage_remove (buffer_from_raw w mem kp kl)
            (RegisterId.new (usize w r))])
    ∧ shim_context_id w r = [HostCall.context_id (RegisterId.new (usize w r))]
    ∧ shim_executor_id w r = [HostCall.executor_id (RegisterId.new (usize w r))]
    ∧ shim_register_len w h r =
        (PtrSizedInt.as_usize (h.register_len (RegisterId.new (usize w r))),
         [HostCall.register_len (RegisterId.new (usize w r))])
    ∧ shim_read_register w h r bp bl =
        (bool_to_u32 (h.read_register (RegisterId.new (usize w r))
            (buffer_mut_from_raw w bp bl)),
         [HostCall.read_register (RegisterId.new (usize w r))
            (buffer_mut_from_raw w bp bl)])
    ∧ shim_emit w mem kp kl dp dl =
        [HostCall.emit (Event.new (from_utf8_unchecked (buffer_from_raw w mem kp kl))
          (buffer_from_raw w mem dp dl))]
    ∧ shim_emit_with_handler w mem kp kl dp dl hp hl =
        [HostCall.emit_with_handler
          (Event.new (from_utf8_unchecked (buffer_from_raw w mem kp kl))
            (buffer_from_raw w mem dp dl))
          (buffer_from_raw w mem hp hl)]
    ∧ shim_commit w mem rp rl ap al =
        [HostCall.commit (buffer_from_raw w mem rp rl) (buffer_from_raw w mem ap al)]
    ∧ shim_time_now w bp bl = [HostCall.time_now (buffer_mut_from_raw w bp bl)]
    ∧ shim_blob_create h = (PtrSizedInt.as_usize h.blob_create, [HostCall.blob_create])
    ∧ shim_blob_open w h mem ip il =
        (PtrSizedInt.as_usize (h.blob_open (buffer_from_raw w mem ip il)),
         [HostCall.blob_open (buffer_from_raw w mem ip il)])
    ∧ shim_blob_read w h fd bp bl =
        (PtrSizedInt.as_usize (h.blob_read (PtrSizedInt.new (usize w fd))
            (buffer_mut_from_raw w bp bl)),
         [HostCall.blob_read (PtrSizedInt.new (usize w fd))
            (buffer_mut_from_raw w bp bl)])
    ∧ shim_blob_write w h mem fd dp dl =
        (PtrSizedInt.as_usize (h.blob_write (PtrSizedInt.new (usize w fd))
            (buffer_from_raw w mem dp dl)),
         [HostCall.blob_write (PtrSizedInt.new (usize w fd))
            (buffer_from_raw w mem dp dl)])
    ∧ shim_blob_close w h fd bp bl =
        (bool_to_u32 (h.blob_close (PtrSizedInt.new (usize w fd))
            (buffer_mut_from_raw w bp bl)),
         [HostCall.blob_close (PtrSizedInt.new (usize w fd))
            (buffer_mut_from_raw w bp bl)]) :=
  ⟨rfl, rfl, rfl, rfl, rfl, rfl, rfl, rfl, rfl, rfl, rfl, rfl, rfl, rfl, rfl, rfl, rfl⟩

/-- Claim C6: no entry point validates its inputs or produces a shim-level
error.  The UTF-8 reinterpretation is the identity on every byte list,
well-formed or not (for example on the malformed single byte 255), and every
one of the 17 entry points is totally characterized at every input — for
arbitrary address/length pairs, with no side condition, no bounds check, and
no error outcome in any codomain: each just builds the unvalidated span and
makes its host call. -/
theorem no_validation_no_shim_error (w : Nat) (h : Host) (mem : Mem)
    (bytes : List Nat) (p l kp kl vp vl r bp bl dp dl hp hl rp rl ap al ip il fd : Nat) :
    from_utf8_unchecked bytes = bytes
    ∧ from_utf8_unchecked [255] = [255]
    ∧ shim_log_utf8 w mem p l = [HostCall.log (buffer_from_raw w mem p l)]
    ∧ shim_storage_read w h mem kp kl r =
        (bool_to_u32 (h.storage_read (buffer_from_raw w mem kp kl)
            (RegisterId.new (usize w r))),
         [HostCall.storage_read (buffer_from_raw w mem kp kl)
            (RegisterId.new (usize w r))])
    ∧ shim_storage_write w h mem kp kl vp vl r =
        (bool_to_u32 (h.storage_write (buffer_from_raw w mem kp kl)
            (buffer_from_raw w mem vp vl) (RegisterId.new (usize w r))),
         [HostCall.storage_write (buffer_from_raw w mem kp kl)
            (buffer_from_raw w mem vp vl) (RegisterId.new (usize w r))])
    ∧ shim_storage_remove w h mem kp kl r =
        (bool_to_u32 (h.storage_remove (buffer_from_raw w mem kp kl)
            (RegisterId.new (usize w r))),
         [HostCall.storage_remove (buffer_from_raw w mem kp kl)
            (RegisterId.new (usize w r))])
    ∧ shim_context_id w r = [HostCall.context_id (RegisterId.new (usize w r))]
    ∧ shim_executor_id w r = [HostCall.executor_id (RegisterId.new (usize w r))]
    ∧ shim_register_len w h r =
        (PtrSizedInt.as_usize (h.register_len (RegisterId.new (usize w r))),
         [HostCall.register_len (RegisterId.new (usize w r))])
    ∧ shim_read_register w h r bp bl =
        (bool_to_u32 (h.read_register (RegisterId.new (usize w r))
            (buffer_mut_from_raw w bp bl)),
         [HostCall.read_register (RegisterId.new (usize w r))
            (buffer_mut_from_raw w bp bl)])
    ∧ shim_emit w mem kp kl dp dl =
        [HostCall.emit (Event.new (buffer_from_raw w mem kp kl)
          (buffer_from_raw w mem dp dl))]
    ∧ shim_emit_with_handler w mem kp kl dp dl hp hl =
        [HostCall.emit_with_handler (Event.new (buffer_from_raw w mem kp kl)
          (buffer_from_raw w mem dp dl)) (buffer_from_raw w mem hp hl)]
    ∧ shim_commit w mem rp rl ap al =
        [HostCall.commit (buffer_from_raw w mem rp rl) (buffer_from_raw w mem ap al)]
    ∧ shim_time_now w bp bl = [HostCall.time_now (buffer_mut_from_raw w bp bl)]
    ∧ shim_blob_create h = (PtrSizedInt.as_usize h.blob_create, [HostCall.blob_create])
    ∧ shim_blob_open w h mem ip il =
        (PtrSizedInt.as_usize (h.blob_open (buffer_from_raw w mem ip il)),
         [HostCall.blob_open (buffer_from_raw w mem ip il)])
    ∧ shim_blob_read w h fd bp bl =
        (PtrSizedInt.as_usize (h.blob_read (PtrSizedInt.new (usize w fd))
            (buffer_mut_from_raw w bp bl)),
         [HostCall.blob_read (PtrSizedInt.new (usize w fd))
            (buffer_mut_from_raw w bp bl)])
    ∧ shim_blob_write w h mem fd dp dl =
        (PtrSizedInt.as_usize (h.blob_write (PtrSizedInt.new (usize w fd))
            (buffer_from_raw w mem dp dl)),
         [HostCall.blob_write (PtrSizedInt.new (usize w fd))
            (buffer_from_raw w mem dp dl)])
    ∧ shim_blob_close w h fd bp bl =
        (bool_to_u32 (h.blob_close (PtrSizedInt.new (usize w fd))
            (buffer_mut_from_raw w bp bl)),
         [HostCall.blob_close (PtrSizedInt.new (usize w fd))
            (buffer_mut_from_raw w bp bl)]) :=
  ⟨rfl, rfl, rfl, rfl, rfl, rfl, rfl, rfl, rfl, rfl, rfl, rfl, rfl, rfl, rfl, rfl,
   rfl, rfl, rfl⟩

/-- Claim C7: against the spec-modelled register host, calling
`shim_register_len` and then `shim_read_register` with a destination sized
exactly to the returned length returns the success code 1, while a strictly
smaller destination returns the failure result 0 and the host writes nothing
into the destination — the register contents are never silently truncated. -/
theorem register_read_exact_or_fail (w : Nat) (regs : Nat → List Nat)
    (r bp bl bq bm : Nat) :
    (usize w bl = (shim_register_len w (specHost regs) r).1 →
      (shim_read_register w (specHost regs) r bp bl).1 = 1)
    ∧ (usize w bm < (shim_register_len w (specHost regs) r).1 →
      (shim_read_register w (specHost regs) r bq bm).1 = 0
      ∧ (spec_read_register regs (RegisterId.new (usize w r))
          (buffer_mut_from_raw w bq bm)).2 = []) := by
  constructor
  · intro hx
    have hx' : usize w bl = (regs (RegisterId.new (usize w r))).length := hx
    simp [shim_read_register, specHost, spec_read_register, buffer_mut_from_raw,
      hx', bool_to_u32, HostBool.try_into]
  · intro hm
    have hm' : usize w bm ≠ (regs (RegisterId.new (usize w r))).length :=
      Nat.ne_of_lt hm
    constructor
    · simp [shim_read_register, specHost, spec_read_register, buffer_mut_from_raw,
        hm', bool_to_u32, HostBool.try_into]
    · simp [spec_read_register, buffer_mut_from_raw, hm']

/-- Witness for C7: a two-byte register, a destination of length 2 succeeds,
a destination of length 1 fails with nothing written. -/
theorem register_read_exact_or_fail_witness :
    ((shim_read_register 32 (specHost demoRegs) 0 100 2).1 = 1)
    ∧ ((shim_read_register 32 (specHost demoRegs) 0 100 1).1 = 0
      ∧ (spec_read_register demoRegs (RegisterId.new (usize 32 0))
          (buffer_mut_from_raw 32 100 1)).2 = []) :=
  ⟨(register_read_exact_or_fail 32 demoRegs 0 100 2 100 1).1 (by decide),
   (register_read_exact_or_fail 32 demoRegs 0 100 2 100 1).2 (by decide)⟩

/-- Claim C8: the shim holds no state across calls — in any run, the outcome
of an invocation is a function of its own arguments, the caller memory and the
host alone, independent of the invocations before and after it. -/
theorem invocations_independent (w : Nat) (h : Host) (mem : Mem)
    (prior later : List Invocation) (inv : Invocation) :
    run w h mem (prior ++ inv :: later)
      = run w h mem prior ++ invoke w h mem inv :: run w h mem later := by
  simp [run]

/-- Claim C9: register-id and blob-descriptor parameters are narrowed with a
cast to the pointer-sized integer before forwarding — the cast is reduction
modulo `2 ^ w` — so two caller-supplied u64 values congruent modulo
`2 ^ w` produce identical results and identical host-visible calls, naming
the same host register or descriptor. -/
theorem descriptor_narrowing (w : Nat) (h : Host) (mem : Mem)
    (kp kl vp vl dp dl r1 r2 fd1 fd2 bp bl : Nat)
    (hr : r1 % 2 ^ w = r2 % 2 ^ w) (hf : fd1 % 2 ^ w = fd2 % 2 ^ w) :
    usize w r1 = r1 % 2 ^ w
    ∧ shim_storage_read w h mem kp kl r1 = shim_storage_read w h mem kp kl r2
    ∧ shim_storage_write w h mem kp kl vp vl r1
        = shim_storage_write w h mem kp kl vp vl r2
    ∧ shim_storage_remove w h mem kp kl r1 = shim_storage_remove w h mem kp kl r2
    ∧ shim_context_id w r1 = shim_context_id w r2
    ∧ shim_executor_id w r1 = shim_executor_id w r2
    ∧ shim_register_len w h r1 = shim_register_len w h r2
    ∧ shim_read_register w h r1 bp bl = shim_read_register w h r2 bp bl
    ∧ shim_blob_read w h fd1 bp bl = shim_blob_read w h fd2 bp bl
    ∧ shim_blob_write w h mem fd1 dp dl = shim_blob_write w h mem fd2 dp dl
    ∧ shim_blob_close w h fd1 bp bl = shim_blob_close w h fd2 bp bl := by
  refine ⟨rfl, ?_, ?_, ?_, ?_, ?_, ?_, ?_, ?_, ?_, ?_⟩ <;>
    simp [shim_storage_read, shim_storage_write, shim_storage_remove,
      shim_context_id, shim_executor_id, shim_register_len, shim_read_register,
      shim_blob_read, shim_blob_write, shim_blob_close, usize, RegisterId.new,
      PtrSizedInt.new, hr, hf]

/-- Witness for C9 at pointer width 32: 5 and 5 + 2^32 name the same register,
6 and 6 + 2^32 the same blob descriptor, across all ten entry points. -/
theorem descriptor_narrowing_witness :
    usize 32 5 = 5 % 2 ^ 32
    ∧ shim_storage_read 32 demoHost demoMem 0 0 5
        = shim_storage_read 32 demoHost demoMem 0 0 4294967301
    ∧ shim_storage_write 32 demoHost demoMem 0 0 0 0 5
        = shim_storage_write 32 demoHost demoMem 0 0 0 0 4294967301
    ∧ shim_storage_remove 32 demoHost demoMem 0 0 5
        = shim_storage_remove 32 demoHost demoMem 0 0 4294967301
    ∧ shim_context_id 32 5 = shim_context_id 32 4294967301
    ∧ shim_executor_id 32 5 = shim_executor_id 32 4294967301
    ∧ shim_register_len 32 demoHost 5 = shim_register_len 32 demoHost 4294967301
    ∧ shim_read_register 32 demoHost 5 0 0
        = shim_read_register 32 demoHost 4294967301 0 0
    ∧ shim_blob_read 32 demoHost 6 0 0 = shim_blob_read 32 demoHost 4294967302 0 0
    ∧ shim_blob_write 32 demoHost demoMem 6 0 0
        = shim_blob_write 32 demoHost demoMem 4294967302 0 0
    ∧ shim_blob_close 32 demoHost 6 0 0 = shim_blob_close 32 demoHost 4294967302 0 0 :=
  descriptor_narrowing 32 demoHost demoMem 0 0 0 0 0 0 5 4294967301 6 4294967302 0 0
    (by decide) (by decide)

end CalimeroShim
